import Mathlib

/-!
Verification of the transformation layer of the backlink-overview app
(`src/app.py`): the JSON data model, `extract_general_overview`,
`add_country_percentages`, `fetch_backlink_data`, and the spec-described
date formatter and backlink-row extractor.

Python dictionaries decoded from JSON are modelled as association lists of
string keys; Python numbers (the `int` counts and the `float` results of
division and `round`) are modelled as exact rationals, with `round(x, 2)`
modelled as round-half-to-even at two decimal places. Python exceptions
(`KeyError`, `AttributeError`, `TypeError`, and the fetch-layer errors)
are modelled with `Except`.
-/

/-- A JSON value as decoded by `response.json()`: Python's `None`, `bool`,
numbers, `str`, `list` and `dict` (a `dict` keeps its key-value pairs in
order, keys unique in practice; lookup finds the first match). -/
inductive Json : Type where
  | null : Json
  | bool : Bool → Json
  | num : ℚ → Json
  | str : String → Json
  | arr : List Json → Json
  | obj : List (String × Json) → Json

/-- First-match lookup of a key in a decoded Python dict. -/
def lookupKey (k : String) : List (String × Json) → Option Json
  | [] => none
  | (k₂, v) :: fs => if k₂ = k then some v else lookupKey k fs

/-- Python `d.get(key, default)` on a decoded value: only a dict has `.get`;
calling it on anything else raises `AttributeError`. -/
def pyGetD (j : Json) (k : String) (d : Json) : Except String Json :=
  match j with
  | Json.obj fs => Except.ok ((lookupKey k fs).getD d)
  | _ => Except.error "AttributeError"

/-- Python `d[key]` subscript on a decoded value: a dict raises `KeyError`
when the key is absent; a non-dict raises `TypeError`. -/
def pyIndex (j : Json) (k : String) : Except String Json :=
  match j with
  | Json.obj fs =>
      match lookupKey k fs with
      | some v => Except.ok v
      | none => Except.error "KeyError"
  | _ => Except.error "TypeError"

/-- Reading a decoded value as a number (arithmetic on anything else in the
percentage computation raises `TypeError`). -/
def asNum (j : Json) : Except String ℚ :=
  match j with
  | Json.num q => Except.ok q
  | _ => Except.error "TypeError"

/-- A Python list comprehension over `Except`: stops at the first raised
exception, otherwise collects the results in order. -/
def mapExcept (f : α → Except String β) : List α → Except String (List β)
  | [] => Except.ok []
  | x :: xs => do
      let y ← f x
      let ys ← mapExcept f xs
      Except.ok (y :: ys)

/-- Round-half-to-even to the nearest integer, the tie-breaking rule of
Python's built-in `round`. -/
def rndHE (q : ℚ) : ℤ :=
  if q - ⌊q⌋ < 1 / 2 then ⌊q⌋
  else if 1 / 2 < q - ⌊q⌋ then ⌊q⌋ + 1
  else if ⌊q⌋ % 2 = 0 then ⌊q⌋ else ⌊q⌋ + 1

/-- Python `round(x, 2)` modelled over exact rationals: round-half-to-even
at the second decimal place. -/
def round2 (q : ℚ) : ℚ := (rndHE (q * 100) : ℚ) / 100

/-- Embedding of `extract_general_overview` from `src/app.py` (lines 162-175):
`summary = api_response.get("summary", {})`, then each summary field via
`summary.get(...)` (default `None`, i.e. `Json.null`), and
`top_countries = api_response.get("top_countries", [])`. A non-dict
`api_response` or a non-dict `summary` value raises `AttributeError` at
the first `.get` call on it. -/
def extract_general_overview (api_response : Json) : Except String (List (String × Json)) :=
  match api_response with
  | Json.obj fs =>
      match (lookupKey "summary" fs).getD (Json.obj []) with
      | Json.obj gs =>
          Except.ok
            [ ("domain", (lookupKey "target" gs).getD Json.null)
            , ("rank", (lookupKey "rank" gs).getD Json.null)
            , ("backlinks", (lookupKey "backlinks" gs).getD Json.null)
            , ("backlinks_spam_score", (lookupKey "backlinks_spam_score" gs).getD Json.null)
            , ("broken_backlinks", (lookupKey "broken_backlinks" gs).getD Json.null)
            , ("broken_pages", (lookupKey "broken_pages" gs).getD Json.null)
            , ("crawled_pages", (lookupKey "crawled_pages" gs).getD Json.null)
            , ("external_links_count", (lookupKey "external_links_count" gs).getD Json.null)
            , ("top_countries", (lookupKey "top_countries" fs).getD (Json.arr [])) ]
      | _ => Except.error "AttributeError"
  | _ => Except.error "AttributeError"

/-- Reading `item["count"]` as a number, as in the generator expression
`sum(item["count"] for item in top_countries)` of `add_country_percentages`. -/
def getCount (item : Json) : Except String ℚ := do
  let c ← pyIndex item "count"
  asNum c

/-- One element of the result list comprehension of `add_country_percentages`
(lines 183-189 of `src/app.py`): the dict literal evaluates
`item["country"]` first, then `round((item["count"] / total) * 100, 2)`. -/
def acpRow (total : ℚ) (item : Json) : Except String Json := do
  let country ← pyIndex item "country"
  let cj ← pyIndex item "count"
  let c ← asNum cj
  Except.ok (Json.obj [("Country", country), ("Percentage (%)", Json.num (round2 (c / total * 100)))])

/-- Embedding of `add_country_percentages` from `src/app.py` (lines 178-189):
`total = sum(item["count"] for item in top_countries)`; if `total == 0`
return `[]`; otherwise the list comprehension of `{"Country": ...,
"Percentage (%)": round((item["count"] / total) * 100, 2)}`. Iterating a
non-list raises `TypeError`. -/
def add_country_percentages (top_countries : Json) : Except String Json :=
  match top_countries with
  | Json.arr items => do
      let counts ← mapExcept getCount items
      let total := counts.sum
      if total = 0 then
        Except.ok (Json.arr [])
      else do
        let rows ← mapExcept (acpRow total) items
        Except.ok (Json.arr rows)
  | _ => Except.error "TypeError"

/-- A well-formed country entry `{"country": c, "count": n}` as the API
returns them. -/
def mkEntry (c : String) (n : ℚ) : Json :=
  Json.obj [("country", Json.str c), ("count", Json.num n)]

/-- A well-formed `top_countries` list built from (name, count) pairs. -/
def mkCountries (es : List (String × ℚ)) : Json :=
  Json.arr (es.map fun p => mkEntry p.1 p.2)

/-- The HTTP response `requests.get` hands back (after any redirect
following): its final status code and the result of decoding its body as
JSON (`none` when the body is not valid JSON). -/
structure HttpResponse : Type where
  status : ℕ
  jsonBody : Option Json

/-- The fetch-layer error taxonomy that can arise once a response exists:
`HttpStatusError` (from `raise_for_status`) and `DecodeError` (from
`response.json()`). A `TransportError` arises inside `requests.get`
before any response exists, so it is outside this model. -/
inductive FetchError : Type where
  | httpStatus : ℕ → FetchError
  | decode : FetchError
deriving DecidableEq

/-- Semantics of `raise_for_status` of the `requests` library: raises `HTTPError`
exactly for client-error (4xx) and server-error (5xx) status codes,
i.e. for `400 ≤ status < 600`, and returns normally otherwise. -/
def raise_for_status (r : HttpResponse) : Except FetchError Unit :=
  if 400 ≤ r.status ∧ r.status < 600 then Except.error (FetchError.httpStatus r.status)
  else Except.ok ()

/-- Embedding of `fetch_backlink_data` from `src/app.py` (lines 151-159), modelled as a
function of the received HTTP response: `response.raise_for_status()`
then `return response.json()`. -/
def fetch_backlink_data (r : HttpResponse) : Except FetchError Json := do
  let _ ← raise_for_status r
  match r.jsonBody with
  | some j => Except.ok j
  | none => Except.error FetchError.decode

/-- Reads up to `k` characters as a base-10 number; fails unless exactly
`k` digits are present. Used by the ISO-8601 timestamp reader. -/
def readNatAux (acc : ℕ) : ℕ → List Char → Option (ℕ × List Char)
  | 0, cs => some (acc, cs)
  | _ + 1, [] => none
  | k + 1, c :: cs =>
      if c.isDigit then readNatAux (acc * 10 + (c.toNat - 48)) k cs else none

/-- Consumes one expected character. -/
def expectChar (ch : Char) : List Char → Option (List Char)
  | [] => none
  | c :: cs => if c = ch then some cs else none

/-- Modelled from the spec: the repository under `src/` contains no date
formatter, so its parser is reconstructed from §4.2 of the spec: an
ISO-8601 timestamp `YYYY-MM-DDTHH:MM:SS`, "accepting a trailing `Z` as
UTC offset", with the fields range-checked; yields (year, month, day). -/
def parseIso (s : String) : Option (ℕ × ℕ × ℕ) := do
  let (y, r) ← readNatAux 0 4 s.data
  let r ← expectChar '-' r
  let (mo, r) ← readNatAux 0 2 r
  let r ← expectChar '-' r
  let (d, r) ← readNatAux 0 2 r
  let r ← expectChar 'T' r
  let (hh, r) ← readNatAux 0 2 r
  let r ← expectChar ':' r
  let (mi, r) ← readNatAux 0 2 r
  let r ← expectChar ':' r
  let (ss, r) ← readNatAux 0 2 r
  let r := match r with
    | ['Z'] => []
    | other => other
  match r with
  | [] =>
      if 1 ≤ mo ∧ mo ≤ 12 ∧ 1 ≤ d ∧ d ≤ 31 ∧ hh ≤ 23 ∧ mi ≤ 59 ∧ ss ≤ 59 then
        some (y, mo, d)
      else none
  | _ => none

/-- Zero-padded two-digit rendering of a number below 100. -/
def two (n : ℕ) : String :=
  if n < 10 then "0" ++ toString n else toString n

/-- Modelled from the spec: the date formatter missing from `src/`
(§4.2, §8): parse the ISO-8601 timestamp and reformat to `dd-mm-yy`; on
any parse failure return the original string unchanged; `None` maps to
`None`. -/
def format_date (v : Option String) : Option String :=
  match v with
  | none => none
  | some s =>
      match parseIso s with
      | some (y, mo, d) => some (two d ++ "-" ++ two mo ++ "-" ++ two (y % 100))
      | none => some s

/-- Modelled from the spec: the two fixed link-type labels (§4.2 maps the
`dofollow` boolean to "one of two fixed labels"; the literal text is not
fixed by the spec). -/
def dofollowLabel : String := "Dofollow"

/-- Modelled from the spec: the label for a `dofollow = false` backlink. -/
def nofollowLabel : String := "Nofollow"

/-- Permissive field access of the spec-described row extractor: a missing
key (or a non-dict entry) defaults, per §3 and §7. -/
def getKeyD (j : Json) (k : String) (d : Json) : Json :=
  match j with
  | Json.obj fs => (lookupKey k fs).getD d
  | _ => d

/-- The `dofollow` flag of a backlink entry: "boolean, default false when
absent" (§3). -/
def entryDofollow (e : Json) : Bool :=
  match getKeyD e "dofollow" Json.null with
  | Json.bool b => b
  | _ => false

/-- A `first_seen` value passed through the date formatter: a string is
formatted (or passed through unchanged on parse failure); a missing value
(`null`) passes through as `null` (§3). -/
def formatJsonDate (j : Json) : Json :=
  match j with
  | Json.str s => Json.str ((format_date (some s)).getD s)
  | other => other

/-- A display-ready backlink row (§4.2 `BacklinkRecord`). -/
structure BacklinkRecord : Type where
  sourceDomain : Json
  url : Json
  linkType : String
  spamScore : Json
  firstSeen : Json

/-- One row of `extractBacklinkRows`: `domain_from→sourceDomain`,
`url_from→url`, `dofollow→linkType`, `backlink_spam_score→spamScore`,
`first_seen→firstSeen` through the date formatter. -/
def mkBacklinkRecord (e : Json) : BacklinkRecord :=
  { sourceDomain := getKeyD e "domain_from" Json.null
  , url := getKeyD e "url_from" Json.null
  , linkType := if entryDofollow e then dofollowLabel else nofollowLabel
  , spamScore := getKeyD e "backlink_spam_score" Json.null
  , firstSeen := formatJsonDate (getKeyD e "first_seen" Json.null) }

/-- Modelled from the spec: `extractBacklinkRows` is missing from `src/`;
per §4.2 it reads `raw.latest_backlinks` (defaulting to the empty list)
and maps each entry to a `BacklinkRecord`. -/
def extractBacklinkRows (raw : Json) : List BacklinkRecord :=
  match getKeyD raw "latest_backlinks" (Json.arr []) with
  | Json.arr xs => xs.map mkBacklinkRecord
  | _ => []

example : format_date (some "2023-05-01T00:00:00Z") = some "01-05-23" := rfl

example : format_date (some "not-a-date") = some "not-a-date" := rfl

example : format_date (some "2023-13-01T00:00:00Z") = some "2023-13-01T00:00:00Z" := rfl

example : format_date (some "2023-05-01T00:00:00") = some "01-05-23" := rfl

theorem ok_bind (a : α) (f : α → Except ε β) : (Except.ok a >>= f : Except ε β) = f a := rfl

theorem error_bind (e : ε) (f : α → Except ε β) : (Except.error e >>= f : Except ε β) = Except.error e := rfl

example : getCount (mkEntry "US" 3) = Except.ok 3 := rfl

example : add_country_percentages (mkCountries [("US", 1), ("DE", 3)]) =
    Except.ok (Json.arr
      [ Json.obj [("Country", Json.str "US"), ("Percentage (%)", Json.num 25)]
      , Json.obj [("Country", Json.str "DE"), ("Percentage (%)", Json.num 75)] ]) := by
  simp only [add_country_percentages, mkCountries, mkEntry, mapExcept, getCount, acpRow,
    pyIndex, asNum, lookupKey, List.map_cons, List.map_nil, ok_bind, error_bind,
    String.reduceEq, reduceIte, List.sum_cons, List.sum_nil]
  norm_num [round2, rndHE]

example : add_country_percentages (Json.arr [Json.obj [("count", Json.num 1)]]) =
    Except.error "KeyError" := by
  simp only [add_country_percentages, mapExcept, getCount, acpRow, pyIndex, asNum, lookupKey,
    ok_bind, error_bind, String.reduceEq, reduceIte, List.sum_cons, List.sum_nil]
  norm_num

theorem abs_rndHE_sub_le (q : ℚ) : |(rndHE q : ℚ) - q| ≤ 1 / 2 := by
  have hfl : (⌊q⌋ : ℚ) ≤ q := Int.floor_le q
  have hlt : q < ⌊q⌋ + 1 := Int.lt_floor_add_one q
  unfold rndHE
  split_ifs with h1 h2 h3 <;> rw [abs_le] <;> push_cast <;>
    exact ⟨by linarith, by linarith⟩

theorem round2_sub_self (q : ℚ) : round2 q - q = ((rndHE (q * 100) : ℚ) - q * 100) / 100 := by
  unfold round2; ring

theorem abs_round2_sub_le (q : ℚ) : |round2 q - q| ≤ 1 / 200 := by
  rw [round2_sub_self, abs_div, abs_of_pos (by norm_num : (0:ℚ) < 100),
    div_le_iff₀ (by norm_num : (0:ℚ) < 100)]
  have h := abs_rndHE_sub_le (q * 100)
  linarith

theorem rndHE_nonneg {q : ℚ} (h : 0 ≤ q) : 0 ≤ rndHE q := by
  have herr := abs_rndHE_sub_le q
  rw [abs_le] at herr
  have h2 : ((-1 : ℤ) : ℚ) < (rndHE q : ℚ) := by push_cast; linarith
  have h3 : (-1 : ℤ) < rndHE q := by exact_mod_cast h2
  omega

theorem rndHE_le_of_le {q : ℚ} {B : ℤ} (h : q ≤ B) : rndHE q ≤ B := by
  have herr := abs_rndHE_sub_le q
  rw [abs_le] at herr
  have h2 : (rndHE q : ℚ) < ((B + 1 : ℤ) : ℚ) := by push_cast; linarith
  have h3 : rndHE q < B + 1 := by exact_mod_cast h2
  omega

theorem round2_nonneg {q : ℚ} (h : 0 ≤ q) : 0 ≤ round2 q := by
  have h1 : (0 : ℤ) ≤ rndHE (q * 100) := rndHE_nonneg (by positivity)
  have h2 : (0 : ℚ) ≤ (rndHE (q * 100) : ℚ) := by exact_mod_cast h1
  unfold round2
  positivity

theorem round2_le_100 {q : ℚ} (h : q ≤ 100) : round2 q ≤ 100 := by
  have h1 : rndHE (q * 100) ≤ (10000 : ℤ) := by
    apply rndHE_le_of_le; push_cast; linarith
  have h2 : (rndHE (q * 100) : ℚ) ≤ 10000 := by exact_mod_cast h1
  unfold round2
  rw [div_le_iff₀ (by norm_num : (0:ℚ) < 100)]
  linarith

theorem sum_map_round2_err (l : List ℚ) :
    |(l.map round2).sum - l.sum| ≤ l.length * (1 / 200) := by
  induction l with
  | nil => simp
  | cons x xs ih =>
      simp only [List.map_cons, List.sum_cons, List.length_cons]
      have h1 := abs_round2_sub_le x
      have h2 : round2 x + (xs.map round2).sum - (x + xs.sum) =
          (round2 x - x) + ((xs.map round2).sum - xs.sum) := by ring
      rw [h2]
      calc |(round2 x - x) + ((xs.map round2).sum - xs.sum)|
          ≤ |round2 x - x| + |(xs.map round2).sum - xs.sum| := abs_add _ _
        _ ≤ 1 / 200 + xs.length * (1 / 200) := add_le_add h1 ih
        _ = (xs.length + 1 : ℚ) * (1 / 200) := by ring
        _ = ((xs.length + 1 : ℕ) : ℚ) * (1 / 200) := by push_cast; ring

theorem sum_map_div_mul (l : List ℚ) (T : ℚ) :
    (l.map fun c => c / T * 100).sum = l.sum / T * 100 := by
  induction l with
  | nil => simp
  | cons x xs ih =>
      simp only [List.map_cons, List.sum_cons, ih]
      ring

theorem getCount_mkEntry (c : String) (n : ℚ) : getCount (mkEntry c n) = Except.ok n := rfl

theorem acpRow_mkEntry (T : ℚ) (c : String) (n : ℚ) :
    acpRow T (mkEntry c n) = Except.ok (Json.obj
      [("Country", Json.str c), ("Percentage (%)", Json.num (round2 (n / T * 100)))]) := rfl

theorem mapExcept_getCount (es : List (String × ℚ)) :
    mapExcept getCount (es.map fun p => mkEntry p.1 p.2) = Except.ok (es.map Prod.snd) := by
  induction es with
  | nil => rfl
  | cons p ps ih =>
      simp only [List.map_cons, mapExcept, getCount_mkEntry, ok_bind, ih]

theorem mapExcept_acpRow (T : ℚ) (es : List (String × ℚ)) :
    mapExcept (acpRow T) (es.map fun p => mkEntry p.1 p.2) =
      Except.ok (es.map fun p => Json.obj
        [("Country", Json.str p.1), ("Percentage (%)", Json.num (round2 (p.2 / T * 100)))]) := by
  induction es with
  | nil => rfl
  | cons p ps ih =>
      simp only [List.map_cons, mapExcept, acpRow_mkEntry, ok_bind, ih]

/-- Evaluation of `add_country_percentages` on a well-formed country list:
the source's early return on a zero total, otherwise the comprehension of
rounded percentages. -/
theorem acp_spec (es : List (String × ℚ)) :
    add_country_percentages (mkCountries es) =
      if (es.map Prod.snd).sum = 0 then Except.ok (Json.arr [])
      else Except.ok (Json.arr (es.map fun p => Json.obj
        [ ("Country", Json.str p.1)
        , ("Percentage (%)", Json.num (round2 (p.2 / (es.map Prod.snd).sum * 100)))])) := by
  unfold add_country_percentages mkCountries
  simp only [mapExcept_getCount, ok_bind]
  split_ifs with h
  · rfl
  · simp only [mapExcept_acpRow, ok_bind]

/-- The nine keys of the overview record, in source order. -/
def overviewKeys : List String :=
  [ "domain", "rank", "backlinks", "backlinks_spam_score", "broken_backlinks"
  , "broken_pages", "crawled_pages", "external_links_count", "top_countries" ]

/-- The response shapes on which `extract_general_overview` completes: the
`summary` member is absent or is itself an object (a present non-object
`summary` makes `summary.get(...)` raise `AttributeError`). -/
def summaryWellShaped (fs : List (String × Json)) : Prop :=
  lookupKey "summary" fs = none ∨ ∃ gs, lookupKey "summary" fs = some (Json.obj gs)

theorem egov_summary_none (fs : List (String × Json))
    (h : lookupKey "summary" fs = none) :
    extract_general_overview (Json.obj fs) = Except.ok
      [ ("domain", Json.null)
      , ("rank", Json.null)
      , ("backlinks", Json.null)
      , ("backlinks_spam_score", Json.null)
      , ("broken_backlinks", Json.null)
      , ("broken_pages", Json.null)
      , ("crawled_pages", Json.null)
      , ("external_links_count", Json.null)
      , ("top_countries", (lookupKey "top_countries" fs).getD (Json.arr [])) ] := by
  simp only [extract_general_overview, h, Option.getD_none, lookupKey]

theorem egov_summary_obj (fs gs : List (String × Json))
    (h : lookupKey "summary" fs = some (Json.obj gs)) :
    extract_general_overview (Json.obj fs) = Except.ok
      [ ("domain", (lookupKey "target" gs).getD Json.null)
      , ("rank", (lookupKey "rank" gs).getD Json.null)
      , ("backlinks", (lookupKey "backlinks" gs).getD Json.null)
      , ("backlinks_spam_score", (lookupKey "backlinks_spam_score" gs).getD Json.null)
      , ("broken_backlinks", (lookupKey "broken_backlinks" gs).getD Json.null)
      , ("broken_pages", (lookupKey "broken_pages" gs).getD Json.null)
      , ("crawled_pages", (lookupKey "crawled_pages" gs).getD Json.null)
      , ("external_links_count", (lookupKey "external_links_count" gs).getD Json.null)
      , ("top_countries", (lookupKey "top_countries" fs).getD (Json.arr [])) ] := by
  simp only [extract_general_overview, h, Option.getD_some]

/-- C1: for every input list of country entries whose counts have a total
strictly greater than 0, `add_country_percentages` returns one output
entry per input entry, in input order, carrying the input entry's country
name unchanged, with percentage `round(count / total * 100, 2)` where
`total` is the sum of all counts. -/
theorem add_country_percentages_positive_total (es : List (String × ℚ))
    (h : 0 < (es.map Prod.snd).sum) :
    add_country_percentages (mkCountries es) = Except.ok (Json.arr
      (es.map fun p => Json.obj
        [ ("Country", Json.str p.1)
        , ("Percentage (%)", Json.num (round2 (p.2 / (es.map Prod.snd).sum * 100))) ])) := by
  rw [acp_spec, if_neg (ne_of_gt h)]

theorem add_country_percentages_positive_total_witness :
    0 < (([(("US" : String), (1 : ℚ))]).map Prod.snd).sum ∧
    add_country_percentages (mkCountries [("US", 1)]) = Except.ok (Json.arr
      (([(("US" : String), (1 : ℚ))]).map fun p => Json.obj
        [ ("Country", Json.str p.1)
        , ("Percentage (%)",
            Json.num (round2 (p.2 / (([(("US" : String), (1 : ℚ))]).map Prod.snd).sum * 100))) ])) :=
  ⟨by simp, add_country_percentages_positive_total [("US", 1)] (by simp)⟩

/-- C2: for every input list of country entries whose counts sum to 0 —
including the empty list — `add_country_percentages` takes the early
`return []` branch, so it returns the empty list and the division by the
total is never reached. -/
theorem add_country_percentages_zero_total (es : List (String × ℚ))
    (h : (es.map Prod.snd).sum = 0) :
    add_country_percentages (mkCountries es) = Except.ok (Json.arr []) := by
  rw [acp_spec, if_pos h]

theorem add_country_percentages_zero_total_witness :
    (([] : List (String × ℚ)).map Prod.snd).sum = 0 ∧
    add_country_percentages (mkCountries []) = Except.ok (Json.arr []) :=
  ⟨rfl, add_country_percentages_zero_total [] rfl⟩

/-- C4: `extract_general_overview` on the empty object yields all eight
summary fields `null` and an empty `top_countries` list, raising no
exception; and on every input object lacking the `summary` key, the eight
summary fields are all `null`. -/
theorem extract_general_overview_missing_summary :
    extract_general_overview (Json.obj []) = Except.ok
      [ ("domain", Json.null), ("rank", Json.null), ("backlinks", Json.null)
      , ("backlinks_spam_score", Json.null), ("broken_backlinks", Json.null)
      , ("broken_pages", Json.null), ("crawled_pages", Json.null)
      , ("external_links_count", Json.null), ("top_countries", Json.arr []) ] ∧
    ∀ fs, lookupKey "summary" fs = none →
      extract_general_overview (Json.obj fs) = Except.ok
        [ ("domain", Json.null), ("rank", Json.null), ("backlinks", Json.null)
        , ("backlinks_spam_score", Json.null), ("broken_backlinks", Json.null)
        , ("broken_pages", Json.null), ("crawled_pages", Json.null)
        , ("external_links_count", Json.null)
        , ("top_countries", (lookupKey "top_countries" fs).getD (Json.arr [])) ] :=
  ⟨rfl, fun fs h => egov_summary_none fs h⟩

theorem extract_general_overview_missing_summary_witness :
    lookupKey "summary" [(("other" : String), Json.null)] = none ∧
    extract_general_overview (Json.obj [("other", Json.null)]) = Except.ok
      [ ("domain", Json.null), ("rank", Json.null), ("backlinks", Json.null)
      , ("backlinks_spam_score", Json.null), ("broken_backlinks", Json.null)
      , ("broken_pages", Json.null), ("crawled_pages", Json.null)
      , ("external_links_count", Json.null)
      , ("top_countries",
          (lookupKey "top_countries" [(("other" : String), Json.null)]).getD (Json.arr [])) ] :=
  ⟨rfl, extract_general_overview_missing_summary.2 [("other", Json.null)] rfl⟩

/-- C7: the date formatter maps `"2023-05-01T00:00:00Z"` to `"01-05-23"`
(dd-mm-yy), maps `None` to `None`, and returns an unparsable string such
as `"not-a-date"` unchanged instead of raising. -/
theorem format_date_spec_examples :
    format_date (some "2023-05-01T00:00:00Z") = some "01-05-23" ∧
    format_date none = none ∧
    format_date (some "not-a-date") = some "not-a-date" :=
  ⟨rfl, rfl, rfl⟩

/-- C8: `extractBacklinkRows` on the given one-entry payload yields exactly
one row with `sourceDomain = "a.com"`, `linkType` the dofollow label and
`firstSeen = "10-01-22"`; and a missing `latest_backlinks` key yields the
empty row list for every input object. -/
theorem extractBacklinkRows_spec :
    extractBacklinkRows (Json.obj [("latest_backlinks", Json.arr
      [ Json.obj
        [ ("domain_from", Json.str "a.com")
        , ("url_from", Json.str "http://a.com/x")
        , ("dofollow", Json.bool true)
        , ("backlink_spam_score", Json.num 2)
        , ("first_seen", Json.str "2022-01-10T00:00:00Z") ] ])]) =
      [ { sourceDomain := Json.str "a.com"
        , url := Json.str "http://a.com/x"
        , linkType := dofollowLabel
        , spamScore := Json.num 2
        , firstSeen := Json.str "10-01-22" } ] ∧
    ∀ fs, lookupKey "latest_backlinks" fs = none → extractBacklinkRows (Json.obj fs) = [] := by
  constructor
  · rfl
  · intro fs h
    simp only [extractBacklinkRows, getKeyD, h, Option.getD_none, List.map_nil]

theorem extractBacklinkRows_spec_witness :
    lookupKey "latest_backlinks" ([] : List (String × Json)) = none ∧
    extractBacklinkRows (Json.obj []) = [] :=
  ⟨rfl, extractBacklinkRows_spec.2 [] rfl⟩

/-- C3: for non-negative counts with a strictly positive total, the
percentages `add_country_percentages` produces sum to 100 within a
tolerance of 0.02 per entry. -/
theorem add_country_percentages_sum_near_100 (es : List (String × ℚ))
    (_h0 : ∀ p ∈ es, 0 ≤ p.2) (h : 0 < (es.map Prod.snd).sum) :
    add_country_percentages (mkCountries es) = Except.ok (Json.arr
      (es.map fun p => Json.obj
        [ ("Country", Json.str p.1)
        , ("Percentage (%)", Json.num (round2 (p.2 / (es.map Prod.snd).sum * 100))) ])) ∧
    |(es.map fun p => round2 (p.2 / (es.map Prod.snd).sum * 100)).sum - 100| ≤
      es.length * (2 / 100) := by
  refine ⟨by rw [acp_spec, if_neg (ne_of_gt h)], ?_⟩
  have key : (es.map fun p => round2 (p.2 / (es.map Prod.snd).sum * 100)) =
      ((es.map Prod.snd).map fun c => c / (es.map Prod.snd).sum * 100).map round2 := by
    simp only [List.map_map]
    rfl
  have h1 := sum_map_round2_err ((es.map Prod.snd).map fun c => c / (es.map Prod.snd).sum * 100)
  rw [sum_map_div_mul, div_self (ne_of_gt h), one_mul, List.length_map, List.length_map] at h1
  rw [key]
  calc |(((es.map Prod.snd).map fun c => c / (es.map Prod.snd).sum * 100).map round2).sum - 100|
      ≤ es.length * (1 / 200) := h1
    _ ≤ es.length * (2 / 100) := by
        apply mul_le_mul_of_nonneg_left (by norm_num) (Nat.cast_nonneg es.length)

theorem add_country_percentages_sum_near_100_witness :
    (∀ p ∈ [(("US" : String), (1 : ℚ))], 0 ≤ p.2) ∧
    0 < (([(("US" : String), (1 : ℚ))]).map Prod.snd).sum ∧
    (add_country_percentages (mkCountries [("US", 1)]) = Except.ok (Json.arr
      (([(("US" : String), (1 : ℚ))]).map fun p => Json.obj
        [ ("Country", Json.str p.1)
        , ("Percentage (%)",
            Json.num (round2 (p.2 / (([(("US" : String), (1 : ℚ))]).map Prod.snd).sum * 100))) ])) ∧
    |(([(("US" : String), (1 : ℚ))]).map fun p =>
        round2 (p.2 / (([(("US" : String), (1 : ℚ))]).map Prod.snd).sum * 100)).sum - 100| ≤
      ([(("US" : String), (1 : ℚ))]).length * (2 / 100)) :=
  ⟨by simp, by simp,
    add_country_percentages_sum_near_100 [("US", 1)] (by simp) (by simp)⟩

/-- C9: for non-negative counts with a strictly positive total, every
percentage `add_country_percentages` produces lies in the closed interval
[0, 100]. -/
theorem add_country_percentages_range (es : List (String × ℚ))
    (h0 : ∀ p ∈ es, 0 ≤ p.2) (h : 0 < (es.map Prod.snd).sum) :
    add_country_percentages (mkCountries es) = Except.ok (Json.arr
      (es.map fun p => Json.obj
        [ ("Country", Json.str p.1)
        , ("Percentage (%)", Json.num (round2 (p.2 / (es.map Prod.snd).sum * 100))) ])) ∧
    ∀ p ∈ es, 0 ≤ round2 (p.2 / (es.map Prod.snd).sum * 100) ∧
      round2 (p.2 / (es.map Prod.snd).sum * 100) ≤ 100 := by
  refine ⟨by rw [acp_spec, if_neg (ne_of_gt h)], ?_⟩
  intro p hp
  have hmem : p.2 ∈ es.map Prod.snd := List.mem_map_of_mem Prod.snd hp
  have hnn : ∀ x ∈ es.map Prod.snd, 0 ≤ x := by
    intro x hx
    obtain ⟨p₂, hp₂, rfl⟩ := List.mem_map.mp hx
    exact h0 p₂ hp₂
  have hle : p.2 ≤ (es.map Prod.snd).sum := List.single_le_sum hnn p.2 hmem
  have hd0 : 0 ≤ p.2 / (es.map Prod.snd).sum * 100 :=
    mul_nonneg (div_nonneg (h0 p hp) (le_of_lt h)) (by norm_num)
  have hd1 : p.2 / (es.map Prod.snd).sum * 100 ≤ 100 := by
    have hq : p.2 / (es.map Prod.snd).sum ≤ 1 := (div_le_one h).mpr hle
    linarith
  exact ⟨round2_nonneg hd0, round2_le_100 hd1⟩

theorem add_country_percentages_range_witness :
    (∀ p ∈ [(("US" : String), (1 : ℚ))], 0 ≤ p.2) ∧
    0 < (([(("US" : String), (1 : ℚ))]).map Prod.snd).sum ∧
    (add_country_percentages (mkCountries [("US", 1)]) = Except.ok (Json.arr
      (([(("US" : String), (1 : ℚ))]).map fun p => Json.obj
        [ ("Country", Json.str p.1)
        , ("Percentage (%)",
            Json.num (round2 (p.2 / (([(("US" : String), (1 : ℚ))]).map Prod.snd).sum * 100))) ])) ∧
    ∀ p ∈ [(("US" : String), (1 : ℚ))],
      0 ≤ round2 (p.2 / (([(("US" : String), (1 : ℚ))]).map Prod.snd).sum * 100) ∧
      round2 (p.2 / (([(("US" : String), (1 : ℚ))]).map Prod.snd).sum * 100) ≤ 100) :=
  ⟨by simp, by simp, add_country_percentages_range [("US", 1)] (by simp) (by simp)⟩

/-- C5 counterexample: a country entry lacking the `country` key makes
`add_country_percentages` raise `KeyError` (the entry `{"count": 1}` gives
a nonzero total, and the comprehension's `item["country"]` then raises),
refuting "the transformer functions never raise ... including country
entries that lack the count or country key". -/
theorem add_country_percentages_missing_country_raises :
    add_country_percentages (Json.arr [Json.obj [("count", Json.num 1)]]) =
      Except.error "KeyError" := by
  simp only [add_country_percentages, mapExcept, getCount, acpRow, pyIndex, asNum, lookupKey,
    ok_bind, error_bind, String.reduceEq, reduceIte, List.sum_cons, List.sum_nil]
  norm_num

/-- C5 amended: the transformers raise no error for missing fields at the
response and summary level — `extract_general_overview` succeeds whenever
the `summary` member is absent or an object, and `add_country_percentages`
succeeds on every list of entries that each carry `country` and `count`
keys — but a country entry lacking one of its two keys raises `KeyError`
rather than being defaulted. -/
theorem transformers_permissive_amended :
    (∀ fs : List (String × Json), summaryWellShaped fs →
      ∃ out, extract_general_overview (Json.obj fs) = Except.ok out) ∧
    (∀ es : List (String × ℚ), ∃ out, add_country_percentages (mkCountries es) = Except.ok out) := by
  constructor
  · intro fs h
    rcases h with h | ⟨gs, h⟩
    · exact ⟨_, egov_summary_none fs h⟩
    · exact ⟨_, egov_summary_obj fs gs h⟩
  · intro es
    by_cases hz : (es.map Prod.snd).sum = 0
    · exact ⟨_, by rw [acp_spec, if_pos hz]⟩
    · exact ⟨_, by rw [acp_spec, if_neg hz]⟩

theorem transformers_permissive_amended_witness :
    (∃ out, extract_general_overview (Json.obj []) = Except.ok out) ∧
    (∃ out, add_country_percentages (mkCountries []) = Except.ok out) :=
  ⟨transformers_permissive_amended.1 [] (Or.inl rfl),
    transformers_permissive_amended.2 []⟩

/-- C6 counterexample: status 304 is not a success (non-2xx), yet
`fetch_backlink_data` does not fail with an `HttpStatusError` there:
`raise_for_status` only raises for 4xx/5xx, so a 304 response with a JSON
body is returned decoded. -/
theorem fetch_backlink_data_304_not_error :
    ¬(200 ≤ 304 ∧ 304 < 300) ∧
    fetch_backlink_data ⟨304, some (Json.obj [])⟩ = Except.ok (Json.obj []) :=
  ⟨by decide, rfl⟩

/-- C6 amended: `fetch_backlink_data` fails with an `HttpStatusError` for
every 4xx/5xx status, propagating it to the caller; for every other
status (2xx, but also e.g. 3xx) it returns the decoded JSON body, failing
with a `DecodeError` when the body is not valid JSON. -/
theorem fetch_backlink_data_status_amended (r : HttpResponse) :
    (400 ≤ r.status ∧ r.status < 600 →
      fetch_backlink_data r = Except.error (FetchError.httpStatus r.status)) ∧
    (¬(400 ≤ r.status ∧ r.status < 600) →
      fetch_backlink_data r = (match r.jsonBody with
        | some j => Except.ok j
        | none => Except.error FetchError.decode)) := by
  refine ⟨fun h => ?_, fun h => ?_⟩
  · simp only [fetch_backlink_data, raise_for_status, if_pos h, error_bind]
  · simp only [fetch_backlink_data, raise_for_status, if_neg h, ok_bind]

theorem fetch_backlink_data_status_amended_witness :
    fetch_backlink_data ⟨500, none⟩ = Except.error (FetchError.httpStatus 500) ∧
    fetch_backlink_data ⟨204, none⟩ = Except.error FetchError.decode :=
  ⟨(fetch_backlink_data_status_amended ⟨500, none⟩).1 (by decide),
    (fetch_backlink_data_status_amended ⟨204, none⟩).2 (by decide)⟩

/-- C10 counterexample: on the input object `{"summary": 5}` the code
raises `AttributeError` (`summary.get` on an `int`), so
`extract_general_overview` does not return a record at all there,
refuting the claim for every input object. -/
theorem extract_general_overview_nonobject_summary_raises :
    extract_general_overview (Json.obj [("summary", Json.num 5)]) =
      Except.error "AttributeError" := rfl

/-- C10 amended: for every input object whose `summary` member is absent
or itself an object, `extract_general_overview` returns a record with
exactly the nine keys `domain`, `rank`, `backlinks`,
`backlinks_spam_score`, `broken_backlinks`, `broken_pages`,
`crawled_pages`, `external_links_count`, `top_countries`, in that order;
no other input key ever appears in the output. -/
theorem extract_general_overview_keys_amended (fs : List (String × Json))
    (h : summaryWellShaped fs) :
    ∃ out, extract_general_overview (Json.obj fs) = Except.ok out ∧
      out.map Prod.fst = overviewKeys := by
  rcases h with h | ⟨gs, h⟩
  · exact ⟨_, egov_summary_none fs h, rfl⟩
  · exact ⟨_, egov_summary_obj fs gs h, rfl⟩

theorem extract_general_overview_keys_amended_witness :
    summaryWellShaped [] ∧
    ∃ out, extract_general_overview (Json.obj []) = Except.ok out ∧
      out.map Prod.fst = overviewKeys :=
  ⟨Or.inl rfl, extract_general_overview_keys_amended [] (Or.inl rfl)⟩
